import Mathlib

/-!
Verification development for the clscorgi repository
(bibliographic-metadata-to-RDF conversion).

The development shallowly embeds the triple-generation core:

* the recursive graph-fragment builder `ttl`
  (`src/eltec2rdf/utils/utils.py`, class `ttl`, `__iter__`);
* the URI allocator `mkuri` and namespace constructor `uri_ns`
  (`src/clscorgi/utils/utils.py`);
* the vocabulary lookup (`src/clscorgi/vocabs/vocab_lookup.py`);
* binding-record validation (`src/clscorgi/models.py`);
* the per-corpus triple generators for ELTeC and DLK
  (`src/clscorgi/rdfgenerators.py`, `src/clscorgi/dlk/triple_generators.py`,
  `src/clscorgi/eltec/triple_generators.py`);
* the `require_defaults` skip decorator (`src/clscorgi/utils/utils.py`).

RDF terms are represented by the type `Node`; machine randomness
(`uuid4`) is made explicit as a stream `Nat → String` together with a
cursor that is threaded through every allocation in source order, and
blank-node allocation (`BNode()`) is made explicit as a counter.
-/

namespace Clscorgi

/-- An RDF term: a URI reference, a blank node (identified by its
allocation index), a literal, or a non-RDF Python object that reached a
triple position (the builder's catch-all case does not reject these). -/
inductive Node where
  | uri : String → Node
  | bnode : Nat → Node
  | lit : String → Node
  | other : String → Node
deriving DecidableEq, Repr

/-- A subject–predicate–object triple; predicates are written as
prefixed names (e.g. `"crm:P2_has_type"`). -/
abbrev Triple := Node × String × Node

mutual
/-- Object specifications accepted by the builder `ttl`
(`src/eltec2rdf/utils/utils.py`): the match in `ttl.__iter__`
distinguishes `list() | Iterator()` of predicate/object pairs
(`nested`), `tuple()` (`fanout`), and everything else (`scalar`, the
catch-all `case _`; `Node.other` values for non-RDF objects land here
as well).  Lists and pair generators behave identically in the source
(both match the first case and are drained in order), so both are
represented by `nested`. -/
inductive ObjSpec where
  | scalar : Node → ObjSpec
  | fanout : SpecList → ObjSpec
  | nested : PairList → ObjSpec

inductive SpecList where
  | nil : SpecList
  | cons : ObjSpec → SpecList → SpecList

inductive PairList where
  | nil : PairList
  | cons : String → ObjSpec → PairList → PairList
end

/-- Convert a Lean list of predicate/object pairs to a `PairList`. -/
def pL : List (String × ObjSpec) → PairList
  | [] => .nil
  | (p, o) :: rest => .cons p o (pL rest)

/-- Convert a Lean list of object specifications to a `SpecList`. -/
def sL : List ObjSpec → SpecList
  | [] => .nil
  | o :: rest => .cons o (sL rest)

mutual
/-- Expansion semantics of `ttl.__iter__`
(`src/eltec2rdf/utils/utils.py`, lines 107–119), with the `BNode()`
allocator made explicit as a counter `c` (the `n`-th allocated blank
node is `Node.bnode n`).

`ttlPairs subj ps c` iterates the predicate/object pairs in order;
`ttlObj` dispatches on the shape of one object exactly as the `match`
statement does: a `nested` pair list allocates a fresh blank node `_b`,
yields `(subj, pred, _b)` and then recurses on `_b` (`yield from
ttl(_b, *obj)`); a `fanout` tuple re-expands the same subject against
the zipped pair list `zip(repeat(pred), obj)`; anything else is yielded
directly as `(subj, pred, obj)`. -/
def ttlPairs (subj : Node) (ps : PairList) (c : Nat) : List Triple × Nat :=
  match ps with
  | .nil => ([], c)
  | .cons p o rest =>
    let x := ttlObj subj p o c
    let y := ttlPairs subj rest x.2
    (x.1 ++ y.1, y.2)

def ttlObj (subj : Node) (pred : String) (o : ObjSpec) (c : Nat) :
    List Triple × Nat :=
  match o with
  | .nested ps =>
    let b := Node.bnode c
    let inner := ttlPairs b ps (c + 1)
    ((subj, pred, b) :: inner.1, inner.2)
  | .fanout os => ttlFan subj pred os c
  | .scalar n => ([(subj, pred, n)], c)

def ttlFan (subj : Node) (pred : String) (os : SpecList) (c : Nat) :
    List Triple × Nat :=
  match os with
  | .nil => ([], c)
  | .cons o rest =>
    let x := ttlObj subj pred o c
    let y := ttlFan subj pred rest x.2
    (x.1 ++ y.1, y.2)
end

/-- A node counts as allocated (or supplied) before blank-node index
`c` if it is either not a blank node at all or a blank node with a
smaller allocation index. -/
def allocatedBefore (c : Nat) (n : Node) : Prop :=
  ∀ k, n = Node.bnode k → k < c

@[simp] lemma ttlPairs_nil (subj : Node) (c : Nat) :
    ttlPairs subj .nil c = ([], c) := by
  simp [ttlPairs]

@[simp] lemma ttlPairs_cons (subj : Node) (p : String) (o : ObjSpec)
    (rest : PairList) (c : Nat) :
    ttlPairs subj (.cons p o rest) c =
      ((ttlObj subj p o c).1 ++
        (ttlPairs subj rest (ttlObj subj p o c).2).1,
       (ttlPairs subj rest (ttlObj subj p o c).2).2) := by
  simp [ttlPairs]

@[simp] lemma ttlObj_scalar (subj : Node) (pred : String) (n : Node)
    (c : Nat) :
    ttlObj subj pred (.scalar n) c = ([(subj, pred, n)], c) := by
  simp [ttlObj]

@[simp] lemma ttlObj_nested (subj : Node) (pred : String) (ps : PairList)
    (c : Nat) :
    ttlObj subj pred (.nested ps) c =
      ((subj, pred, Node.bnode c) :: (ttlPairs (Node.bnode c) ps (c + 1)).1,
       (ttlPairs (Node.bnode c) ps (c + 1)).2) := by
  simp [ttlObj]

@[simp] lemma ttlObj_fanout (subj : Node) (pred : String) (os : SpecList)
    (c : Nat) :
    ttlObj subj pred (.fanout os) c = ttlFan subj pred os c := by
  simp [ttlObj]

@[simp] lemma ttlFan_nil (subj : Node) (pred : String) (c : Nat) :
    ttlFan subj pred .nil c = ([], c) := by
  simp [ttlFan]

@[simp] lemma ttlFan_cons (subj : Node) (pred : String) (o : ObjSpec)
    (rest : SpecList) (c : Nat) :
    ttlFan subj pred (.cons o rest) c =
      ((ttlObj subj pred o c).1 ++
        (ttlFan subj pred rest (ttlObj subj pred o c).2).1,
       (ttlFan subj pred rest (ttlObj subj pred o c).2).2) := by
  simp [ttlFan]

/-- Expanding a fan-out of scalar objects: one triple per object, in
input order, no blank node allocated. -/
lemma ttlFan_scalars (subj : Node) (pred : String) (os : List Node)
    (c : Nat) :
    ttlFan subj pred (sL (os.map .scalar)) c =
      (os.map fun o => (subj, pred, o), c) := by
  induction os with
  | nil => simp [sL]
  | cons o rest ih => simp [sL, ih]

/-- Expanding a pair list whose objects are all scalars: one triple per
pair, in input order, no blank node allocated. -/
lemma ttlPairs_scalars (subj : Node) (pairs : List (String × Node))
    (c : Nat) :
    ttlPairs subj (pL (pairs.map fun q => (q.1, .scalar q.2))) c =
      (pairs.map fun q => (subj, q.1, q.2), c) := by
  induction pairs with
  | nil => simp [pL]
  | cons q rest ih => simp [pL, ih]

/-- C1.  Expanding `s` against the single pair `(p, [(p2, x)])` with
the graph fragment builder yields exactly the two triples
`(s, p, B)` and `(B, p2, x)` where `B = Node.bnode c` is the blank node
freshly allocated at the current counter value `c`; `B` differs from
every previously allocated blank node and from the subject `s`
(provided `s` was allocated before, i.e. is not itself the about-to-be-
allocated blank node), and the nested-object case holds recursively at
every nesting level: expanding any `(p, nested ps)` pair links the
parent subject to a fresh blank node `B` and continues the expansion of
`ps` with `B` as subject. -/
theorem ttl_nested_fresh_bnode (s : Node) (p p2 : String) (x : Node)
    (c : Nat) :
    (ttlPairs s (pL [(p, .nested (pL [(p2, .scalar x)]))]) c =
      ([(s, p, Node.bnode c), (Node.bnode c, p2, x)], c + 1))
    ∧ (∀ k, k < c → Node.bnode c ≠ Node.bnode k)
    ∧ (allocatedBefore c s → Node.bnode c ≠ s)
    ∧ (∀ ps : PairList,
        ttlObj s p (.nested ps) c =
          ((s, p, Node.bnode c) ::
            (ttlPairs (Node.bnode c) ps (c + 1)).1,
           (ttlPairs (Node.bnode c) ps (c + 1)).2)) := by
  refine ⟨by simp [pL], ?_, ?_, fun ps => by simp⟩
  · intro k hk h
    injection h with h
    omega
  · intro hs h
    exact absurd (hs c h.symm) (lt_irrefl c)

/-- C1 witness: the theorem applied at `s = uri "s"`, `p = "p"`,
`p2 = "p2"`, `x = lit "x"`, counter `1` (so one blank node was
allocated previously). -/
theorem ttl_nested_fresh_bnode_witness :
    (ttlPairs (.uri "s")
        (pL [("p", .nested (pL [("p2", .scalar (.lit "x"))]))]) 1 =
      ([(.uri "s", "p", .bnode 1), (.bnode 1, "p2", .lit "x")], 2))
    ∧ Node.bnode 1 ≠ Node.bnode 0
    ∧ Node.bnode 1 ≠ Node.uri "s" := by
  have h := ttl_nested_fresh_bnode (.uri "s") "p" "p2" (.lit "x") 1
  exact ⟨h.1, h.2.1 0 (by decide), h.2.2.1 (fun k hk => by cases hk)⟩

/-- C2.  Expanding `s` against the single pair `(p, (o1, …, oN))`
where the object is a fan-out tuple of N scalar objects yields exactly
the N triples `(s, p, oi)`, one per tuple element, in tuple order. -/
theorem ttl_fanout_tuple (s : Node) (p : String) (os : List Node)
    (c : Nat) :
    ttlPairs s (pL [(p, .fanout (sL (os.map .scalar)))]) c =
      (os.map fun o => (s, p, o), c) := by
  simp [pL, ttlFan_scalars]

/-- C3.  Expanding a subject against a finite sequence of
predicate/scalar-object pairs emits exactly one triple per pair in the
input pair order; in particular the empty pair sequence yields the
empty triple sequence and a single pair `(p, lit)` yields exactly
`[(s, p, lit)]`. -/
theorem ttl_scalar_pairs_in_order (s : Node)
    (pairs : List (String × Node)) (p : String) (o : Node) (c : Nat) :
    (ttlPairs s (pL (pairs.map fun q => (q.1, .scalar q.2))) c =
      (pairs.map fun q => (s, q.1, q.2), c))
    ∧ ttlPairs s (pL []) c = ([], c)
    ∧ ttlPairs s (pL [(p, .scalar o)]) c = ([(s, p, o)], c) := by
  exact ⟨ttlPairs_scalars s pairs c, by simp [pL], by simp [pL]⟩

/-- C5 counterexample.  The builder does not fail on an object that
matches none of the recognized RDF shapes: the `match` in
`ttl.__iter__` ends in a catch-all `case _` that yields the object
directly, so expanding against a non-RDF Python object (here modelled
as `Node.other "object()"`) silently emits one triple with that object,
rather than raising an error. -/
theorem ttl_unrecognized_shape_counterexample :
    (ttlPairs (.uri "s") (pL [("p", .scalar (.other "object()"))]) 0).1 =
      [(.uri "s", "p", .other "object()")]
    ∧ ((ttlPairs (.uri "s")
          (pL [("p", .scalar (.other "object()"))]) 0).1).length = 1 := by
  constructor <;> simp [pL]

/-- C5 amended.  For every pair whose object is not a list, pair
generator, or tuple — including objects of unrecognized, non-RDF shape
— the builder's catch-all case treats the object as a scalar and emits
exactly the one triple `(s, p, obj)`; no shape validation is performed
and no error is raised. -/
theorem ttl_unrecognized_shape_emits (s : Node) (p tag : String)
    (c : Nat) :
    ttlObj s p (.scalar (.other tag)) c = ([(s, p, .other tag)], c) := by
  simp

/-! ### URI allocator (`src/clscorgi/utils/utils.py`, `mkuri`, `uri_ns`)

`mkuri` builds `URIRef(f"{base}{path[:length]}")` where the path is a
`uuid4()` when no hash value is given and a truncated cryptographic
hash of the given value otherwise.  The external pieces are made
explicit parameters: the hash function (`hashlib.sha256` — the source
literally takes `hash_function` as a parameter) and the process
randomness (`uuid4`, modelled as a stream `rand : Nat → String` with a
cursor that advances once per random draw). -/

/-- Python slice `s[:length]` where `length` may be `None`: the first
`length` characters. -/
def strSliceTo (s : String) : Option Nat → String
  | some n => String.mk (s.data.take n)
  | none => s

/-- Modelled from the spec: `lodkit.utils.genhash` (external library,
not under `src/`) — "allocate_deterministic(namespace, label,
hash_length) returns namespace + truncated_hash(label)": the hash of
the value, truncated to `length` characters. -/
def genhash (hashFn : String → String) (value : String)
    (length : Option Nat) : String :=
  strSliceTo (hashFn value) length

/-- `mkuri` (`src/clscorgi/utils/utils.py`, lines 68–88): state-passing
embedding.  `st` is the cursor into the randomness stream; it advances
only when `uuid4()` is consulted, i.e. only when `hash_value` is
`None`.  Returns the URI string and the new cursor. -/
def mkuri (hashFn : String → String) (rand : Nat → String)
    (hash_value : Option String) (length : Option Nat) (st : Nat) :
    String × Nat :=
  match hash_value with
  | none =>
    ("https://clscor.io/entity/" ++ strSliceTo (rand st) length, st + 1)
  | some v =>
    ("https://clscor.io/entity/" ++
      strSliceTo (genhash hashFn v length) length, st)

/-- Arguments of `uri_ns`: a plain name (random URI) or a
name/hash-value pair (deterministic URI). -/
inductive NsArg where
  | plain : String → NsArg
  | hashed : String → String → NsArg

/-- `uri_ns` (`src/clscorgi/utils/utils.py`, lines 91–105): builds the
name → URI namespace mapping in argument order, drawing one random URI
per plain name and one deterministic URI per (name, value) pair. -/
def uri_ns (hashFn : String → String) (rand : Nat → String) :
    List NsArg → Nat → List (String × String) × Nat
  | [], st => ([], st)
  | .plain n :: rest, st =>
    let u := mkuri hashFn rand none (some 10) st
    let r := uri_ns hashFn rand rest u.2
    ((n, u.1) :: r.1, r.2)
  | .hashed n v :: rest, st =>
    let u := mkuri hashFn rand (some v) (some 10) st
    let r := uri_ns hashFn rand rest u.2
    ((n, u.1) :: r.1, r.2)

/-- Namespace lookup (attribute access on the `SimpleNamespace`). -/
def nsGet (ns : List (String × String)) (name : String) : Node :=
  match ns.find? (fun e => e.1 == name) with
  | some e => Node.uri e.2
  | none => Node.other "AttributeError"

/-- C6.  The deterministic URI allocator is a pure function of its
inputs: two `mkuri` calls with the same hash function, label and
length return byte-identical URIs regardless of the randomness stream
or its cursor (i.e. across calls, processes and runs), and the
randomness cursor is not advanced. -/
theorem mkuri_deterministic (hashFn : String → String)
    (rand rand' : Nat → String) (label : String) (length : Option Nat)
    (st st' : Nat) :
    (mkuri hashFn rand (some label) length st).1 =
      (mkuri hashFn rand' (some label) length st').1
    ∧ (mkuri hashFn rand (some label) length st).2 = st := by
  exact ⟨rfl, rfl⟩

/-! ### The `require_defaults` skip decorator
(`src/clscorgi/utils/utils.py`, lines 132–157)

The decorator inspects the *declared default values* of the wrapped
function's parameters (`inspect.signature(f).parameters`), runs each
default through the `check` predicate, and short-circuits to
`fail_factory(default)` on the first failing default; the actual call
arguments are never consulted for this decision.  A Python function is
embedded as its list of declared parameter defaults (in signature
order) together with its body. -/

/-- A Python function as seen by `require_defaults`: the declared
parameter defaults, in signature order, and the body invoked with the
actual call arguments. -/
structure PyFunction (α β : Type) where
  defaults : List α
  body : List α → β

/-- `require_defaults` (`src/clscorgi/utils/utils.py`): the wrapper
scans the declared defaults in signature order; if one fails `check`
it returns `fail_factory` of that (first failing) default without
calling the wrapped function, otherwise it calls the wrapped function
with the given arguments. -/
def require_defaults {α β : Type} (check : α → Bool)
    (fail_factory : α → β) (f : PyFunction α β) (args : List α) : β :=
  match f.defaults.find? (fun d => ! check d) with
  | some d => fail_factory d
  | none => f.body args

/-- Python truthiness of an optional string (`bool(None)` and
`bool("")` are `False`). -/
def pyTruthyStr : Option String → Bool
  | none => false
  | some s => !(s == "")

/-- Python f-string formatting of an optional string
(`f"{None}"` is `"None"`). -/
def pyFormat : Option String → String
  | none => "None"
  | some s => s

/-- C10.  The skip decision of `require_defaults` depends only on the
declared defaults: if every declared default passes `check`, the
wrapped function is invoked with the given arguments unchanged; if
some declared default fails `check`, the wrapper returns
`fail_factory` of the first failing default — for *every* body and
*every* actual argument list, i.e. even when the caller passes a value
that would satisfy the predicate, the wrapped function is not
consulted. -/
theorem require_defaults_skips_on_defaults {α β : Type}
    (check : α → Bool) (fail_factory : α → β) (defaults : List α)
    (body : List α → β) (args : List α) :
    (defaults.all check = true →
      require_defaults check fail_factory ⟨defaults, body⟩ args =
        body args)
    ∧ (∀ d, defaults.find? (fun x => ! check x) = some d →
        check d = false
        ∧ ∀ (body' : List α → β) (args' : List α),
            require_defaults check fail_factory ⟨defaults, body'⟩ args' =
              fail_factory d) := by
  constructor
  · intro hall
    have hnone : defaults.find? (fun x => ! check x) = none := by
      rw [List.find?_eq_none]
      intro x hx
      have := List.all_eq_true.mp hall x hx
      simp [this]
    simp [require_defaults, hnone]
  · intro d hd
    have hchk : check d = false := by
      have := List.find?_some hd
      simpa using this
    exact ⟨hchk, fun body' args' => by simp [require_defaults, hd]⟩

/-- C10 witness: the theorem applied twice — once with a failing
declared default (`none`, falsy) and an argument that would satisfy
the predicate, showing the wrapper still skips; once with all defaults
passing, showing the body runs on the given arguments. -/
theorem require_defaults_skips_on_defaults_witness :
    (require_defaults pyTruthyStr (fun _ => ([] : List String))
        ⟨[(none : Option String)], fun as => as.map pyFormat⟩
        [some "value"] = [])
    ∧ (require_defaults pyTruthyStr (fun _ => ([] : List String))
        ⟨[(some "x" : Option String)], fun as => as.map pyFormat⟩
        [some "value"] = ["value"]) := by
  constructor
  · exact ((require_defaults_skips_on_defaults pyTruthyStr
      (fun _ => ([] : List String)) [(none : Option String)]
      (fun as => as.map pyFormat) [some "value"]).2 none (by decide)).2
      (fun as => as.map pyFormat) [some "value"]
  · exact (require_defaults_skips_on_defaults pyTruthyStr
      (fun _ => ([] : List String)) [(some "x" : Option String)]
      (fun as => as.map pyFormat) [some "value"]).1 (by decide)

/-! ### The generator-side builder (lodkit `ttl`)

Every per-corpus generator module imports the builder from the
external `lodkit` library (`from lodkit import ttl`), which is not
under `src/`; the in-repository builder above carries the comment
"this will be available in lodkit soon!". -/

mutual
/-- Modelled from the spec: object specifications of lodkit's `ttl`
builder (external, not under `src/`).  Spec §4.4 gives the same
scalar / fan-out tuple / nested-object list / pair-generator
dispatch as the in-repository builder; in addition the generators pass
`ttl` values with their own subject URI in object position (e.g.
`x1_triples` in `src/clscorgi/rdfgenerators.py`), which link the outer
subject to the inner builder's subject URI and inline the inner
expansion (`named`). -/
inductive LObj where
  | scalar : Node → LObj
  | fanout : LObjs → LObj
  | anon : LPairs → LObj
  | named : Node → LPairs → LObj

inductive LObjs where
  | nil : LObjs
  | cons : LObj → LObjs → LObjs

inductive LPairs where
  | nil : LPairs
  | cons : String → LObj → LPairs → LPairs
end

/-- Convert a Lean list of predicate/object pairs to `LPairs`. -/
def lP : List (String × LObj) → LPairs
  | [] => .nil
  | (p, o) :: rest => .cons p o (lP rest)

/-- Convert a Lean list of object specifications to `LObjs`. -/
def lO : List LObj → LObjs
  | [] => .nil
  | o :: rest => .cons o (lO rest)

/-- Scalar URI object. -/
def su (s : String) : LObj := .scalar (.uri s)

/-- Scalar literal object. -/
def sl (s : String) : LObj := .scalar (.lit s)

mutual
/-- Modelled from the spec: expansion of lodkit's `ttl` (spec §4.4),
with blank-node allocation as an explicit counter, exactly as for the
in-repository builder; the additional `named` case emits the link
triple to the inner subject URI and then the inner expansion (no blank
node is allocated for it). -/
def lodPairs (subj : Node) (ps : LPairs) (c : Nat) : List Triple × Nat :=
  match ps with
  | .nil => ([], c)
  | .cons p o rest =>
    let x := lodObj subj p o c
    let y := lodPairs subj rest x.2
    (x.1 ++ y.1, y.2)

def lodObj (subj : Node) (pred : String) (o : LObj) (c : Nat) :
    List Triple × Nat :=
  match o with
  | .anon ps =>
    let b := Node.bnode c
    let inner := lodPairs b ps (c + 1)
    ((subj, pred, b) :: inner.1, inner.2)
  | .named u ps =>
    let inner := lodPairs u ps c
    ((subj, pred, u) :: inner.1, inner.2)
  | .fanout os => lodFan subj pred os c
  | .scalar n => ([(subj, pred, n)], c)

def lodFan (subj : Node) (pred : String) (os : LObjs) (c : Nat) :
    List Triple × Nat :=
  match os with
  | .nil => ([], c)
  | .cons o rest =>
    let x := lodObj subj pred o c
    let y := lodFan subj pred rest x.2
    (x.1 ++ y.1, y.2)
end

@[simp] lemma lodPairs_nil (subj : Node) (c : Nat) :
    lodPairs subj .nil c = ([], c) := by
  simp [lodPairs]

@[simp] lemma lodPairs_cons (subj : Node) (p : String) (o : LObj)
    (rest : LPairs) (c : Nat) :
    lodPairs subj (.cons p o rest) c =
      ((lodObj subj p o c).1 ++
        (lodPairs subj rest (lodObj subj p o c).2).1,
       (lodPairs subj rest (lodObj subj p o c).2).2) := by
  simp [lodPairs]

@[simp] lemma lodObj_scalar (subj : Node) (pred : String) (n : Node)
    (c : Nat) :
    lodObj subj pred (.scalar n) c = ([(subj, pred, n)], c) := by
  simp [lodObj]

@[simp] lemma lodObj_anon (subj : Node) (pred : String) (ps : LPairs)
    (c : Nat) :
    lodObj subj pred (.anon ps) c =
      ((subj, pred, Node.bnode c) :: (lodPairs (Node.bnode c) ps (c + 1)).1,
       (lodPairs (Node.bnode c) ps (c + 1)).2) := by
  simp [lodObj]

@[simp] lemma lodObj_named (subj : Node) (pred : String) (u : Node)
    (ps : LPairs) (c : Nat) :
    lodObj subj pred (.named u ps) c =
      ((subj, pred, u) :: (lodPairs u ps c).1, (lodPairs u ps c).2) := by
  simp [lodObj]

@[simp] lemma lodObj_fanout (subj : Node) (pred : String) (os : LObjs)
    (c : Nat) :
    lodObj subj pred (.fanout os) c = lodFan subj pred os c := by
  simp [lodObj]

@[simp] lemma lodFan_nil (subj : Node) (pred : String) (c : Nat) :
    lodFan subj pred .nil c = ([], c) := by
  simp [lodFan]

@[simp] lemma lodFan_cons (subj : Node) (pred : String) (o : LObj)
    (rest : LObjs) (c : Nat) :
    lodFan subj pred (.cons o rest) c =
      ((lodObj subj pred o c).1 ++
        (lodFan subj pred rest (lodObj subj pred o c).2).1,
       (lodFan subj pred rest (lodObj subj pred o c).2).2) := by
  simp [lodFan]

/-- A fan-out of scalar objects: one triple per object, in input
order, no blank node allocated. -/
lemma lodFan_scalars (subj : Node) (pred : String) (os : List Node)
    (c : Nat) :
    lodFan subj pred (lO (os.map .scalar)) c =
      (os.map fun o => (subj, pred, o), c) := by
  induction os with
  | nil => simp [lO]
  | cons o rest ih => simp [lO, ih]

/-! ### Vocabulary lookup
(`src/clscorgi/vocabs/vocab_lookup.py`)

`Vocabs._lookup_term` reverse-looks-up the first subject carrying
`rdfs:label = Literal(term)` in the vocabulary graph, raising
`VocabLookupException` when there is none.  The `vocab` callable the
generators import (`from clscorgi.vocabs.vocabs import vocab`) lives
in a module that is not under `src/`; per the spec (§4.1,
"lookup(vocabulary_name, term) -> URI, fails with a
VocabLookupException-equivalent when no entry matches exactly") it is
modelled by the same exact-label lookup, with a `None` term (a nullable
`id_type`) never resolving. -/

/-- `Vocabs._lookup_term`: the first subject of the graph carrying
`rdfs:label = Literal(term)`, or a lookup error. -/
def lookup_term (graph : List Triple) (term : String) :
    Except String Node :=
  match graph.find? fun t =>
      t.2.1 == "rdfs:label" && t.2.2 == Node.lit term with
  | some t => .ok t.1
  | none => .error ("No subject URI for term '" ++ term ++ "'.")

/-- Modelled from the spec: the `vocab` callable of
`clscorgi.vocabs.vocabs` (module not under `src/`) — exact-label term
lookup raising on a miss; a `None` term never resolves. -/
def vocab (graph : List Triple) (term : Option String) :
    Except String Node :=
  match term with
  | some t => lookup_term graph t
  | none => .error "No subject URI for term 'None'."

/-! ### Binding-record models (`src/clscorgi/models.py`) -/

/-- `IDMapping`: an external identifier with a nullable vocabulary
type and a nullable value. -/
structure IDMapping where
  id_type : Option String
  id_value : Option String
deriving DecidableEq, Repr

/-- `SourceData` (tei:sourceDesc): an `IDMapping` plus a source type
drawn from the closed `source_types` set. -/
structure SourceData extends IDMapping where
  source_type : String
deriving DecidableEq, Repr

/-- `_DLKAuthorsModel`: a DLK author sub-record. -/
structure DLKAuthor where
  forename : String
  surname : String
  full_name : String
deriving DecidableEq, Repr

/-- `_DLKAuthorsModel.check_full_name`
(`src/clscorgi/models.py`, lines 101–110): the model validator raises
unless `full_name == f"{forename} {surname}"`, and returns the record
unchanged otherwise. -/
def check_full_name (a : DLKAuthor) : Except String DLKAuthor :=
  if a.full_name = a.forename ++ " " ++ a.surname then .ok a
  else .error "Field fullname is not composed of forename and surname."

/-- `DLKBindingsModel`: the DLK binding record.  `artificial_title`
and `publication_date` are supplied by the extracted source data and
read by the DLK triple generator
(`src/clscorgi/dlk/triple_generators.py`). -/
structure DLKBindings where
  resource_uri : String
  urn : String
  dlk_id : String
  authors : List DLKAuthor
  title : Option String
  first_line : String
  artificial_title : String
  publication_date : String
deriving DecidableEq, Repr

/-- `DLKBindingsModel.title_validator`
(`src/clscorgi/models.py`, lines 137–142): raises when the title
matches `N\.A\.` at the start, and otherwise falls through **without
returning the value** — so the validated field is the validator's
implicit `None` return, whatever the incoming title was. -/
def title_validator (value : Option String) :
    Except String (Option String) :=
  match value with
  | some v =>
    if v.startsWith "N.A." then .error "Field title must not be 'N.A.'."
    else .ok none
  | none => .ok none

/-- Per-item validation of the DLK author list (pydantic validates
each nested `_DLKAuthorsModel` and fails on the first invalid one). -/
def validate_authors : List DLKAuthor → Except String (List DLKAuthor)
  | [] => .ok []
  | a :: rest =>
    match check_full_name a with
    | .error e => .error e
    | .ok b =>
      match validate_authors rest with
      | .error e => .error e
      | .ok bs => .ok (b :: bs)

/-- Construction of a `DLKBindingsModel` from raw field data: the
author sub-records run through `check_full_name`, the title through
`title_validator`.  (Field-shape checks that no claim depends on —
the `HttpUrl`/`AnyUrl` shapes and the `dlk_id` pattern — are not
modelled.) -/
def DLKBindingsModel_validate (r : DLKBindings) :
    Except String DLKBindings :=
  match validate_authors r.authors with
  | .error e => .error e
  | .ok as_ =>
    match title_validator r.title with
    | .error e => .error e
    | .ok t => .ok { r with authors := as_, title := t }

lemma validate_authors_ok {l bs : List DLKAuthor}
    (h : validate_authors l = .ok bs) :
    bs = l ∧ ∀ a ∈ l, a.full_name = a.forename ++ " " ++ a.surname := by
  induction l generalizing bs with
  | nil =>
    simp [validate_authors] at h
    subst h
    exact ⟨rfl, by simp⟩
  | cons a rest ih =>
    simp only [validate_authors] at h
    rcases ha : check_full_name a with e | b
    · rw [ha] at h; cases h
    · rw [ha] at h
      rcases hr : validate_authors rest with e | bs'
      · rw [hr] at h; cases h
      · rw [hr] at h
        obtain ⟨rfl⟩ : bs = b :: bs' := by cases h; rfl
        have hb : b = a ∧ a.full_name = a.forename ++ " " ++ a.surname := by
          unfold check_full_name at ha
          split at ha
          · cases ha
            next heq => exact ⟨rfl, heq⟩
          · cases ha
        obtain ⟨rfl, hfa⟩ := hb
        obtain ⟨rfl, hrest⟩ := ih hr
        refine ⟨rfl, ?_⟩
        intro x hx
        rcases List.mem_cons.mp hx with rfl | hx
        · exact hfa
        · exact hrest x hx

lemma validate_authors_fails {l : List DLKAuthor} {a : DLKAuthor}
    (ha : a ∈ l) (hne : a.full_name ≠ a.forename ++ " " ++ a.surname) :
    ∀ bs, validate_authors l ≠ .ok bs := by
  intro bs h
  exact hne ((validate_authors_ok h).2 a ha)

/-- C8.  Constructing a DLK binding record succeeds only if every
author's `full_name` equals `forename ++ " " ++ surname`: whenever the
member author `a` violates the composition rule, construction returns
a validation error (never `.ok`); and whenever construction succeeds,
the author list is accepted unchanged (no silent correction) and every
author satisfies the rule. -/
theorem dlk_full_name_validation (r : DLKBindings) (a : DLKAuthor)
    (ha : a ∈ r.authors) :
    (a.full_name ≠ a.forename ++ " " ++ a.surname →
      ∀ b, DLKBindingsModel_validate r ≠ .ok b)
    ∧ (∀ b, DLKBindingsModel_validate r = .ok b →
        b.authors = r.authors
        ∧ a.full_name = a.forename ++ " " ++ a.surname) := by
  constructor
  · intro hne b h
    unfold DLKBindingsModel_validate at h
    rcases hv : validate_authors r.authors with e | as_
    · rw [hv] at h; cases h
    · exact validate_authors_fails ha hne as_ hv
  · intro b h
    unfold DLKBindingsModel_validate at h
    rcases hv : validate_authors r.authors with e | as_
    · rw [hv] at h; cases h
    · rw [hv] at h
      rcases ht : title_validator r.title with e | t
      · rw [ht] at h; cases h
      · rw [ht] at h
        cases h
        obtain ⟨rfl, hall⟩ := validate_authors_ok hv
        exact ⟨rfl, hall a ha⟩

/-- C8 witness: a record whose single author's `full_name` is not the
forename/surname concatenation is rejected; a record whose author
satisfies the rule is accepted with the author list unchanged. -/
theorem dlk_full_name_validation_witness :
    (∀ b, DLKBindingsModel_validate
      { resource_uri := "https://example.org/p", urn := "urn:x",
        dlk_id := "dta.poem.1",
        authors := [⟨"Johann", "Goethe", "J. W. Goethe"⟩],
        title := none, first_line := "Erste Zeile",
        artificial_title := "Erste zeile",
        publication_date := "1850" } ≠ .ok b)
    ∧ (∀ b, DLKBindingsModel_validate
      { resource_uri := "https://example.org/p", urn := "urn:x",
        dlk_id := "dta.poem.1",
        authors := [⟨"Johann", "Goethe", "Johann Goethe"⟩],
        title := none, first_line := "Erste Zeile",
        artificial_title := "Erste zeile",
        publication_date := "1850" } = .ok b →
        b.authors = [⟨"Johann", "Goethe", "Johann Goethe"⟩]
        ∧ ("Johann Goethe" : String) = "Johann" ++ " " ++ "Goethe") := by
  constructor
  · exact (dlk_full_name_validation _ ⟨"Johann", "Goethe", "J. W. Goethe"⟩
      (by simp)).1 (by decide)
  · exact fun b h => (dlk_full_name_validation _
      ⟨"Johann", "Goethe", "Johann Goethe"⟩ (by simp)).2 b h

/-! ### DLK triple generation
(`src/clscorgi/dlk/triple_generators.py`) -/

/-- Modelled from the spec: `lodkit.mkuri_factory(clscore)` (external,
not under `src/`) — deterministic, content-addressed URI allocation
under the CLSCor entity namespace, as `allocate_deterministic` in spec
§4.2 (hash of the label, truncated to 10 characters, identical to the
deterministic branch of `mkuri`). -/
def mkuriC (hashFn : String → String) (v : String) : Node :=
  Node.uri ("https://clscor.io/entity/" ++ genhash hashFn v (some 10))

/-- The URI namespace built by `DLKRDFGenerator.generate_triples`
(`src/clscorgi/rdfgenerators.py`, lines 413–422): random URIs for
`f1, f2, f3, x2, f27, f28, f30`, deterministic URIs for the hashed
names. -/
structure DLKNamespace where
  f1 : Node
  f2 : Node
  f3 : Node
  x2 : Node
  f27 : Node
  f28 : Node
  f30 : Node
  x1_dlk : Node
  x11_dlk : Node
  e55_id : Node
  e55_id_url : Node

/-- `dlk_wemi_triples.__init__`
(`src/clscorgi/dlk/triple_generators.py`, line 26):
`self.title = self.bindings.title or self.bindings.artificial_title` —
Python `or` falls back on any falsy value, i.e. on `None` *and* on the
empty string. -/
def dlk_title (b : DLKBindings) : String :=
  match b.title with
  | some t => if t = "" then b.artificial_title else t
  | none => b.artificial_title

/-- The artificial-title marker type URI
(`src/clscorgi/dlk/triple_generators.py`, lines 61–63). -/
def artificial_title_type : Node :=
  .uri "https://clscor.io/entity/type/appellation/artificial_title"

/-- `dlk_wemi_triples.e35_triples`
(`src/clscorgi/dlk/triple_generators.py`, lines 45–68): the E35 title
entity for the effective title (type assertion plus a `P102i` fan-out
to F1/F2/F3/X2), followed by the artificial-title marker triple
(`P2_has_type` pointing at the artificial-title type) exactly when
`self.bindings.title is None`. -/
def dlk_e35_triples (hashFn : String → String) (ns : DLKNamespace)
    (b : DLKBindings) : List Triple :=
  (lodPairs (mkuriC hashFn (dlk_title b ++ " [Title]"))
    (lP [("rdf:type", su "crm:E35_Title"),
         ("crm:P102i_is_title_of",
           .fanout (lO [.scalar ns.f1, .scalar ns.f2, .scalar ns.f3,
                        .scalar ns.x2]))]) 0).1
  ++ (if b.title = none then
        [(mkuriC hashFn (dlk_title b ++ " [Title]"),
          "crm:P2_has_type", artificial_title_type)]
      else [])

/-- A concrete DLK source record carrying a real title `"Foo"` (the
C7 failing input). -/
def dlkRecordWithTitle : DLKBindings :=
  { resource_uri := "https://example.org/p", urn := "urn:x",
    dlk_id := "dta.poem.1", authors := [],
    title := some "Foo", first_line := "Erste Zeile",
    artificial_title := "Erste zeile", publication_date := "1850" }

/-- C7 (code bug).  A DLK record whose raw `title` field holds the
real title `"Foo"` validates successfully, but `title_validator`
(which never returns the incoming value) leaves the validated record
with `title = none`; consequently the generator's effective title is
the artificial title `"Erste zeile"` rather than `"Foo"`, and the
artificial-title marker triple is emitted although a real title was
present — contradicting the claimed (and intended) behavior that the
marker appears if and only if the real title was absent. -/
theorem dlk_title_validator_nullifies_title
    (hashFn : String → String) (ns : DLKNamespace) :
    DLKBindingsModel_validate dlkRecordWithTitle =
      .ok { dlkRecordWithTitle with title := none }
    ∧ dlk_title { dlkRecordWithTitle with title := none } = "Erste zeile"
    ∧ (mkuriC hashFn "Erste zeile [Title]", "crm:P2_has_type",
        artificial_title_type) ∈
      dlk_e35_triples hashFn ns
        { dlkRecordWithTitle with title := none }
    ∧ dlk_title { dlkRecordWithTitle with title := none } ≠ "Foo" := by
  refine ⟨?_, rfl, ?_, by decide⟩
  · rfl
  · simp [dlk_e35_triples, lP, lO, lodFan_scalars, dlk_title,
      dlkRecordWithTitle, su]

/-! ### Vocabulary-miss behavior of the identifier generators
(`src/clscorgi/rdfgenerators.py`, `work_id_triples`;
`src/clscorgi/eltec/triple_generators.py`,
`eltec_f3_triples.e42_triples`)

Both generators wrap the vocabulary lookup of the identifier's
`id_type` in `contextlib.suppress(VocabLookupException)`: on a miss
the `P2_has_type` triple is simply not yielded, and the base
identifier triples are emitted unconditionally. -/

/-- `work_id_triples` (`src/clscorgi/rdfgenerators.py`, lines
141–159): for each pre-allocated `(e42_uri, work_data)` pair, the
suppressed `P2_has_type` triple (yielded first when the lookup
succeeds), then the base E42 triples (type, label, symbolic
content). -/
def work_id_triples (g : List Triple) (work_title : String)
    (work_ids : List (Node × SourceData)) : List Triple :=
  work_ids.flatMap fun pr =>
    (match vocab g pr.2.id_type with
     | .ok u => [(pr.1, "crm:P2_has_type", u)]
     | .error _ => [])
    ++ (lodPairs pr.1
        (lP [("rdf:type", su "crm:E42_Identifier"),
             ("rdfs:label", sl (work_title ++ " [ID]")),
             ("crm:P190_has_symbolic_content",
               sl (pyFormat pr.2.id_value))]) 0).1

/-- `eltec_f3_triples.e42_triples`
(`src/clscorgi/eltec/triple_generators.py`, lines 62–76): the base E42
triples under the deterministic URI `mkuri(f"e42 {id_value}")`, then
the suppressed `P2_has_type` triple when the lookup succeeds. -/
def eltec_e42_triples (hashFn : String → String) (g : List Triple)
    (work_title : String) (work_id : SourceData) : List Triple :=
  (lodPairs (mkuriC hashFn ("e42 " ++ pyFormat work_id.id_value))
    (lP [("rdf:type", su "crm:E42_Identifier"),
         ("rdfs:label", sl (work_title ++ " [ID]")),
         ("crm:P190_has_symbolic_content",
           sl (pyFormat work_id.id_value))]) 0).1
  ++ (match vocab g work_id.id_type with
      | .ok u => [(mkuriC hashFn ("e42 " ++ pyFormat work_id.id_value),
                   "crm:P2_has_type", u)]
      | .error _ => [])

/-! ### The ELTeC generator
(`src/clscorgi/rdfgenerators.py`, `ELTeCRDFGenerator.generate_triples`)

The whole method is embedded as a function of the binding record, the
vocabulary graph, the hash function, and the randomness stream with
its cursor.  All randomness is drawn in the source's evaluation order:
the `work_ids` key dictionary, the `f3_uris` list, the `author_ids`
key dictionary, then the `uri_ns(...)` namespace. -/

/-- The external collaborators of URI allocation: the hash function
(`hashlib.sha256`) and the process randomness (`uuid4`). -/
structure AllocEnv where
  hashFn : String → String
  rand : Nat → String

/-- One `mkuri` call under an allocation environment, returning the
URI as a `Node` and the advanced randomness cursor. -/
def mkuriE (env : AllocEnv) (hash_value : Option String) (st : Nat) :
    Node × Nat :=
  let r := mkuri env.hashFn env.rand hash_value (some 10) st
  (Node.uri r.1, r.2)

/-- A deterministic `mkuri(value)` call: by `mkuri_deterministic` the
randomness cursor is irrelevant, so it is fixed at `0`. -/
def mkuriD (env : AllocEnv) (v : String) : Node :=
  (mkuriE env (some v) 0).1

/-- `ELTeCBindingsModel` (`src/clscorgi/models.py`, lines 39–49).  The
pydantic model declares the identifier lists as nullable with default
`None` and allows extra fields (`extra="allow"`); `generate_triples`
iterates both lists and reads the extra fields `repo_id` and
`file_stem`, so records are modelled with the lists and the two extra
fields present. -/
structure ELTeCBindings where
  resource_uri : String
  work_title : String
  author_name : String
  author_ids : List IDMapping
  work_ids : List SourceData
  repo_id : String
  file_stem : String

/-- The `work_ids` key dictionary (`src/clscorgi/rdfgenerators.py`,
lines 43–46): one fresh random URI per work identifier, in order. -/
def allocKeyedWorkIds (env : AllocEnv) :
    List SourceData → Nat → List (Node × SourceData) × Nat
  | [], st => ([], st)
  | w :: rest, st =>
    let u := mkuriE env none st
    let r := allocKeyedWorkIds env rest u.2
    ((u.1, w) :: r.1, r.2)

/-- The `f3_uris` list (lines 48–51): one fresh random URI per work
identifier. -/
def allocF3Uris (env : AllocEnv) :
    List SourceData → Nat → List Node × Nat
  | [], st => ([], st)
  | _ :: rest, st =>
    let u := mkuriE env none st
    let r := allocF3Uris env rest u.2
    (u.1 :: r.1, r.2)

/-- The `author_ids` key dictionary (lines 53–56): key
`mkuri(_id.id_value)` — deterministic when the identifier value is
present, a fresh random URI when it is `None`. -/
def allocAuthorIds (env : AllocEnv) :
    List IDMapping → Nat → List (Node × IDMapping) × Nat
  | [], st => ([], st)
  | i :: rest, st =>
    let u := mkuriE env i.id_value st
    let r := allocAuthorIds env rest u.2
    ((u.1, i) :: r.1, r.2)

/-- The twelve `uri_ns` arguments of lines 58–65, in order. -/
def eltec_ns_args (b : ELTeCBindings) : List NsArg :=
  [.plain "e39", .plain "e35",
   .hashed "e39_e41" (b.author_name ++ " [E41]"),
   .plain "x2", .plain "x2_e42",
   .hashed "x1_eltec" "ELTeC [X1]",
   .hashed "x11_eltec" "ELTeC [X11]",
   .plain "f1", .plain "f2", .plain "f3", .plain "f27", .plain "f28"]

/-- Everything `generate_triples` allocates up front, before any
triple is built. -/
structure EltecAlloc where
  work_ids : List (Node × SourceData)
  f3_uris : List Node
  author_ids : List (Node × IDMapping)
  uris : List (String × String)

/-- The single up-front allocation pass of `generate_triples`
(lines 41–65): the `work_ids` keys, the `f3_uris`, the `author_ids`
keys, and the `uri_ns` namespace, drawing randomness in exactly this
order. -/
def eltec_alloc (env : AllocEnv) (b : ELTeCBindings) (st : Nat) :
    EltecAlloc × Nat :=
  let w := allocKeyedWorkIds env b.work_ids st
  let f := allocF3Uris env b.work_ids w.2
  let a := allocAuthorIds env b.author_ids f.2
  let u := uri_ns env.hashFn env.rand (eltec_ns_args b) a.2
  (⟨w.1, f.1, a.1, u.1⟩, u.2)

/-- Project the Entity URI Namespace of one record's conversion. -/
def eltec_uris (env : AllocEnv) (b : ELTeCBindings) (st : Nat) :
    EltecAlloc :=
  (eltec_alloc env b st).1

/-- The ELTeC level-1 schema URL (lines 68–71). -/
def schema_level1 : String :=
  "https://raw.githubusercontent.com/COST-ELTeC/Schemas/master/eltec-1.rng"

/-- ASCII lowercase test (the regex class `[a-z]`). -/
def isAsciiLower (ch : Char) : Bool := 'a' ≤ ch && ch ≤ 'z'

/-- ASCII uppercase test (the regex class `[A-Z]`). -/
def isAsciiUpper (ch : Char) : Bool := 'A' ≤ ch && ch ≤ 'Z'

/-- Python `str.split(sep)` for a one-character separator; `acc` holds
the current chunk's characters in reverse. -/
def splitCharAux (sep : Char) : List Char → List Char → List String
  | acc, [] => [String.mk acc.reverse]
  | acc, c :: rest =>
    if c = sep then String.mk acc.reverse :: splitCharAux sep [] rest
    else splitCharAux sep (c :: acc) rest

/-- Python `s.split('-')`-style splitting at a single character. -/
def splitChar (sep : Char) (s : String) : List String :=
  splitCharAux sep [] s.data

/-- ASCII uppercasing of one character (the repo ids and source types
are ASCII). -/
def chUpper (c : Char) : Char :=
  if isAsciiLower c then Char.ofNat (c.toNat - 32) else c

/-- ASCII lowercasing of one character. -/
def chLower (c : Char) : Char :=
  if isAsciiUpper c then Char.ofNat (c.toNat + 32) else c

/-- Python `str.upper()` (ASCII). -/
def pyUpper (s : String) : String := String.mk (s.data.map chUpper)

/-- Python `str.lower()` (ASCII). -/
def pyLower (s : String) : String := String.mk (s.data.map chLower)

/-- Splitting at every boundary between a lowercase and an uppercase
letter (`re.split('(?<=[a-z])(?=[A-Z])', s)`); `acc` holds the current
chunk's characters in reverse. -/
def camelSplitAux : List Char → List Char → List String
  | acc, [] => [String.mk acc.reverse]
  | acc, ch :: rest =>
    match acc with
    | p :: _ =>
      if isAsciiLower p && isAsciiUpper ch then
        String.mk acc.reverse :: camelSplitAux [ch] rest
      else camelSplitAux (ch :: acc) rest
    | [] => camelSplitAux [ch] rest

/-- `re.split('(?<=[a-z])(?=[A-Z])', s)`. -/
def camelSplit (s : String) : List String := camelSplitAux [] s.data

/-- `resolve_source_type` (`src/clscorgi/utils/utils.py`, lines
21–31): split a camelCase string and rejoin it lowercased with the
default join value `" "`; `functools.reduce` leaves a single chunk
unchanged (in particular not lowercased). -/
def resolve_source_type (source_type : String) : String :=
  match camelSplit source_type with
  | [] => ""
  | a :: rest => rest.foldl (fun x y => pyLower x ++ " " ++ pyLower y) a

/-- `repo_id.split('-')[1].upper()` (line 106), with the `IndexError`
on a repo id without a `-` made explicit. -/
def repoSuffix (s : String) : Except String String :=
  match (splitChar '-' s).get? 1 with
  | some x => .ok (pyUpper x)
  | none => .error "IndexError: list index out of range"

/-- `f1_triples` (lines 81–88). -/
def eltec_f1_triples (al : EltecAlloc) (b : ELTeCBindings) :
    List Triple :=
  (lodPairs (nsGet al.uris "f1")
    (lP [("rdf:type", su "lrm:F1_Work"),
         ("rdfs:label", sl (b.work_title ++ " [Work]")),
         ("lrm:R16i_was_created_by", .scalar (nsGet al.uris "f27")),
         ("lrm:R3_is_realised_in", .scalar (nsGet al.uris "f2")),
         ("lrm:R74i_has_expression_used_in",
           .scalar (nsGet al.uris "f1"))]) 0).1

/-- `f2_triples` (lines 90–98); the last pair fans out over the
corpus document URI and all `f3_uris`. -/
def eltec_f2_triples (al : EltecAlloc) (b : ELTeCBindings) :
    List Triple :=
  (lodPairs (nsGet al.uris "f2")
    (lP [("rdf:type", su "lrm:F2_Expression"),
         ("rdfs:label", sl (b.work_title ++ " [Expression]")),
         ("crm:P102_has_title", .scalar (nsGet al.uris "e35")),
         ("lrm:R3i_realises", .scalar (nsGet al.uris "f1")),
         ("lrm:R17i_was_created_by", .scalar (nsGet al.uris "f28")),
         ("lrm:R4i_is_embodied_in",
           .fanout (lO ((nsGet al.uris "x2" :: al.f3_uris).map
             .scalar)))]) 0).1

/-- `x1_triples` (lines 100–110): the appellation is a nested named
builder with its own deterministic URI. -/
def eltec_x1_triples (env : AllocEnv) (al : EltecAlloc)
    (b : ELTeCBindings) (suffixUpper : String) : List Triple :=
  (lodPairs (mkuriD env b.repo_id)
    (lP [("rdf:type", su "crmcls:X1_Corpus"),
         ("crm:P1_is_identified_by",
           .named (mkuriD env (b.repo_id ++ " [X1 Appellation]"))
             (lP [("rdf:type", su "crm:E41_Appellation"),
                  ("rdf:value", sl ("ELTeC " ++ suffixUpper))])),
         ("lrm:R71_has_part", .scalar (nsGet al.uris "x2")),
         ("crmcls:Y4i_is_subcorpus_of",
           .scalar (nsGet al.uris "x1_eltec"))]) 0).1

/-- `x1_eltec_triples` (lines 112–118). -/
def eltec_x1_eltec_triples (env : AllocEnv) (al : EltecAlloc)
    (b : ELTeCBindings) : List Triple :=
  (lodPairs (nsGet al.uris "x1_eltec")
    (lP [("rdf:type", su "crmcls:X1_Corpus"),
         ("crmcls:Y4_has_subcorpus", .scalar (mkuriD env b.repo_id)),
         ("crm:P148_has_component", .scalar (nsGet al.uris "x2"))]) 0).1

/-- `x2_triples` (lines 120–131); `tei` is the (successful) required
vocabulary lookup `vocab("TEI")`. -/
def eltec_x2_triples (env : AllocEnv) (al : EltecAlloc)
    (b : ELTeCBindings) (tei : Node) : List Triple :=
  (lodPairs (nsGet al.uris "x2")
    (lP [("rdf:type", su "crmcls:X2_Corpus_Document"),
         ("rdfs:label", sl (b.work_title ++ " [TEI Document]")),
         ("crm:P1_is_identified_by", .scalar (nsGet al.uris "x2_e42")),
         ("lrm:R4_embodies", .scalar (nsGet al.uris "f2")),
         ("lrm:R71i_is_part_of", .scalar (mkuriD env b.repo_id)),
         ("crmcls:Y2_has_format", .scalar tei),
         ("crmcls:Y3_adheres_to_schema",
           .scalar (mkuriD env "ELTeC Level 1 Schema")),
         ("crm:P137_exemplifies",
           .scalar (nsGet al.uris "x11_eltec"))]) 0).1

/-- `x2_e42_triples` (lines 133–139). -/
def eltec_x2_e42_triples (env : AllocEnv) (al : EltecAlloc)
    (b : ELTeCBindings) : List Triple :=
  (lodPairs (nsGet al.uris "x2_e42")
    (lP [("rdf:type", su "crm:E42_Identifier"),
         ("rdfs:label", sl (b.work_title ++ " [ELTeC ID]")),
         ("crm:P190_has_symbolic_content", sl b.file_stem),
         ("crm:P2_has_type", .scalar (mkuriD env "ELTeC ID"))]) 0).1

/-- `x8_triples` (lines 188–194). -/
def eltec_x8_triples (env : AllocEnv) (al : EltecAlloc) : List Triple :=
  (lodPairs (mkuriD env "ELTeC Level 1 Schema")
    (lP [("rdf:type", su "crmcls:X8_Schema"),
         ("rdfs:label", sl "ELTeC Level 1 RNG Schema"),
         ("crm:P1_is_identified_by",
           .scalar (mkuriD env schema_level1)),
         ("crmcls:Y3i_is_schema_of", .scalar (nsGet al.uris "x2"))]) 0).1

/-- `f3_triples` (lines 161–186): for each `(f3_uri, (e42_uri,
work_data))` of `zip(f3_uris, work_ids.items())`, the suppressed
`P2_has_type` triple (resolved source type looked up in the
vocabulary), then the base manifestation triples. -/
def eltec_f3_gen (g : List Triple) (al : EltecAlloc)
    (b : ELTeCBindings) : List Triple :=
  (al.f3_uris.zip al.work_ids).flatMap fun pr =>
    (match vocab g (some (resolve_source_type pr.2.2.source_type)) with
     | .ok u => [(pr.1, "crm:P2_has_type", u)]
     | .error _ => [])
    ++ (lodPairs pr.1
        (lP [("rdf:type", su "lrm:F3_Manifestation"),
             ("rdfs:label", sl (b.work_title ++ " [Manifestation]")),
             ("crm:P1_is_identified_by", .scalar pr.2.1),
             ("lrm:R4_embodies", .scalar (nsGet al.uris "f2"))]) 0).1

/-- `f27_triples` (lines 196–202). -/
def eltec_f27_triples (al : EltecAlloc) (b : ELTeCBindings) :
    List Triple :=
  (lodPairs (nsGet al.uris "f27")
    (lP [("rdf:type", su "lrm:F27_Work_Creation"),
         ("rdfs:label", sl (b.work_title ++ " [Work Creation]")),
         ("crm:P14_carried_out_by", .scalar (nsGet al.uris "e39")),
         ("lrm:R16_created", .scalar (nsGet al.uris "f1"))]) 0).1

/-- `f28_triples` (lines 204–213). -/
def eltec_f28_triples (al : EltecAlloc) (b : ELTeCBindings) :
    List Triple :=
  (lodPairs (nsGet al.uris "f28")
    (lP [("rdf:type", su "lrm:F28_Expression_Creation"),
         ("rdfs:label", sl (b.work_title ++ " [Expression Creation]")),
         ("crm:P14_carried_out_by", .scalar (nsGet al.uris "e39")),
         ("lrm:R17_created", .scalar (nsGet al.uris "f2"))]) 0).1

/-- `e35_triples` (lines 215–228); the symbolic-content predicate is
the lowercase `crm.p190_has_symbolic_content` of the source. -/
def eltec_e35_triples (env : AllocEnv) (al : EltecAlloc)
    (b : ELTeCBindings) : List Triple :=
  (lodPairs (nsGet al.uris "e35")
    (lP [("rdf:type", su "crm:E35_Title"),
         ("crm:P102i_is_title_of", .scalar (nsGet al.uris "f2")),
         ("crm:P2_has_type", .scalar (mkuriD env "ELTeC Title")),
         ("rdfs:label", sl (b.work_title ++ " [Title of Expression]")),
         ("crm:p190_has_symbolic_content", sl b.work_title)]) 0).1

/-- The `e42_uris` of `e39_triples` (lines 237–240): one
deterministic E42 URI per author identifier. -/
def eltec_author_e42_uris (env : AllocEnv) (al : EltecAlloc) :
    List Node :=
  al.author_ids.map fun pr =>
    mkuriD env (pyFormat pr.2.id_value ++ " [E42]")

/-- `e39_triples` (lines 230–257): the actor under the deterministic
author-name URI, a fan-out over the two creation events, a fan-out
over the appellation and all author-identifier E42 URIs, then one
`owl:sameAs` link per author-identifier key. -/
def eltec_e39_gen (env : AllocEnv) (al : EltecAlloc)
    (b : ELTeCBindings) : List Triple :=
  (lodPairs (mkuriD env b.author_name)
    (lP [("rdf:type", su "crm:E39_Actor"),
         ("rdfs:label", sl (b.author_name ++ " [Actor]")),
         ("crm:P14i_performed",
           .fanout (lO [.scalar (nsGet al.uris "f27"),
                        .scalar (nsGet al.uris "f28")])),
         ("crm:P1_is_identified_by",
           .fanout (lO ((nsGet al.uris "e39_e41" ::
             eltec_author_e42_uris env al).map .scalar)))]) 0).1
  ++ al.author_ids.map fun pr =>
      (mkuriD env b.author_name, "owl:sameAs", pr.1)

/-- `e39_e41_triples` (lines 259–269). -/
def eltec_e39_e41_triples (env : AllocEnv) (al : EltecAlloc)
    (b : ELTeCBindings) : List Triple :=
  (lodPairs (nsGet al.uris "e39_e41")
    (lP [("rdf:type", su "crm:E41_Appellation"),
         ("rdfs:label", sl "ELTeC Author Name [Appellation]"),
         ("crm:P190_has_symbolic_content",
           sl (b.author_name ++ " [ELTeC Author Name]")),
         ("crm:P2_has_type", .scalar (mkuriD env "ELTeC Author Name")),
         ("crm:P1i_identifies", .scalar (nsGet al.uris "e39"))]) 0).1

/-- `e39_e42_triples` (lines 271–289): per author identifier, the
suppressed `P2_has_type` triple, then the base E42 triples. -/
def eltec_e39_e42_gen (env : AllocEnv) (g : List Triple)
    (al : EltecAlloc) (b : ELTeCBindings) : List Triple :=
  al.author_ids.flatMap fun pr =>
    (match vocab g pr.2.id_type with
     | .ok u => [(mkuriD env (pyFormat pr.2.id_value ++ " [E42]"),
                  "crm:P2_has_type", u)]
     | .error _ => [])
    ++ (lodPairs (mkuriD env (pyFormat pr.2.id_value ++ " [E42]"))
        (lP [("rdf:type", su "crm:E42_Identifier"),
             ("rdfs:label", sl (b.author_name ++ " [ID]")),
             ("crm:P190_has_symbolic_content",
               sl (pyFormat pr.2.id_value))]) 0).1

/-- `e55_eltec_title_triples` (lines 292–297). -/
def eltec_e55_title_triples (env : AllocEnv) (al : EltecAlloc) :
    List Triple :=
  (lodPairs (mkuriD env "ELTeC Title")
    (lP [("rdf:type", su "crm:E55_Type"),
         ("rdfs:label", sl "ELTeC Work Title"),
         ("crm:P2i_is_type_of", .scalar (nsGet al.uris "e35"))]) 0).1

/-- `eltec_schema_triples` (lines 300–305). -/
def eltec_schema_triples (env : AllocEnv) : List Triple :=
  (lodPairs (mkuriD env schema_level1)
    (lP [("rdf:type", su "crm:E42_Identifier"),
         ("rdfs:label", sl "Link to ELTeC Level 1 RNG Schema"),
         ("crm:P190_has_symbolic_content", sl schema_level1)]) 0).1

/-- `e55_eltec_id_triples` (lines 308–313). -/
def eltec_e55_id_triples (env : AllocEnv) (al : EltecAlloc) :
    List Triple :=
  (lodPairs (mkuriD env "ELTeC ID")
    (lP [("rdf:type", su "crm:E55_Type"),
         ("rdfs:label", sl "ELTeC Corpus Document ID"),
         ("crm:P2i_is_type_of", .scalar (nsGet al.uris "x2_e42"))]) 0).1

/-- `e55_eltec_author_name_triples` (lines 315–320). -/
def eltec_e55_author_name_triples (env : AllocEnv) (al : EltecAlloc) :
    List Triple :=
  (lodPairs (mkuriD env "ELTeC Author Name")
    (lP [("rdf:type", su "crm:E55_Type"),
         ("rdfs:label", sl "ELTeC Author Name"),
         ("crm:P2i_is_type_of", .scalar (nsGet al.uris "e39_e41"))]) 0).1

/-- The `itertools.chain` of lines 322–342, given the up-front
allocation `al` and the results of the two eagerly evaluated partial
operations (`repo_id.split('-')[1].upper()` and `vocab("TEI")`). -/
def eltec_body (env : AllocEnv) (g : List Triple) (b : ELTeCBindings)
    (al : EltecAlloc) (suffixUpper : String) (tei : Node) :
    List Triple :=
  eltec_f1_triples al b
  ++ eltec_f2_triples al b
  ++ eltec_x1_triples env al b suffixUpper
  ++ eltec_x1_eltec_triples env al b
  ++ eltec_x2_triples env al b tei
  ++ eltec_x2_e42_triples env al b
  ++ eltec_x8_triples env al
  ++ eltec_f3_gen g al b
  ++ eltec_f27_triples al b
  ++ eltec_f28_triples al b
  ++ eltec_e35_triples env al b
  ++ eltec_e39_gen env al b
  ++ eltec_e39_e41_triples env al b
  ++ eltec_e39_e42_gen env g al b
  ++ eltec_e55_title_triples env al
  ++ eltec_e55_id_triples env al
  ++ eltec_e55_author_name_triples env al
  ++ eltec_schema_triples env
  ++ work_id_triples g b.work_title al.work_ids

/-- `ELTeCRDFGenerator.generate_triples`
(`src/clscorgi/rdfgenerators.py`, lines 41–344): allocate the Entity
URI Namespace once up front (`eltec_uris`), evaluate the two partial
operations that can raise during triple construction (the repo-id
split while building `x1_triples`, the required `vocab("TEI")` lookup
while building `x2_triples` — in the source's evaluation order), and
emit the chained triple sequence. -/
def eltec_generate_triples (env : AllocEnv) (g : List Triple)
    (b : ELTeCBindings) (st : Nat) : Except String (List Triple) :=
  match repoSuffix b.repo_id with
  | .error e => .error e
  | .ok suffixUpper =>
    match vocab g (some "TEI") with
    | .error e => .error e
    | .ok tei =>
      .ok (eltec_body env g b (eltec_uris env b st) suffixUpper tei)

/-- A concrete allocation environment for the concrete witnesses: the identity
"hash" and the decimal-counter randomness stream. -/
def witnessEnv : AllocEnv :=
  { hashFn := fun s => s, rand := fun n => toString n }

/-- A vocabulary graph resolving exactly the required term `"TEI"`. -/
def witnessVocab : List Triple :=
  [(.uri "https://clscor.io/entity/type/format/tei", "rdfs:label",
    .lit "TEI")]

/-- A minimal ELTeC binding record. -/
def witnessEltecBindings : ELTeCBindings :=
  { resource_uri := "https://example.org/r", work_title := "Foo",
    author_name := "Bar Baz", author_ids := [], work_ids := [],
    repo_id := "ELTeC-eng", file_stem := "FOO001" }

/-- C9.  When the vocabulary lookup of an identifier's `id_type`
fails, all three identifier generators — the two work-identifier
generators (`work_id_triples` in `rdfgenerators.py` and
`eltec_f3_triples.e42_triples`) and the author-identifier generator
(`e39_e42_triples` in `rdfgenerators.py`, lines 271–289, embedded as
`eltec_e39_e42_gen`) — still emit exactly the base identifier triples
(type assertion, label, symbolic content value) and omit only the
`P2_has_type` triple; the lookup failure is absorbed locally (the
result is a plain triple list, not an error). -/
theorem vocab_miss_omits_type_triple (env : AllocEnv)
    (hashFn : String → String) (g : List Triple) (wt : String)
    (u ukey : Node) (wid : SourceData) (aid : IDMapping)
    (ws : List (Node × SourceData)) (fs : List Node)
    (ns : List (String × String)) (b : ELTeCBindings) (e e2 : String)
    (hmiss : vocab g wid.id_type = .error e)
    (hmiss2 : vocab g aid.id_type = .error e2) :
    work_id_triples g wt [(u, wid)] =
      [(u, "rdf:type", .uri "crm:E42_Identifier"),
       (u, "rdfs:label", .lit (wt ++ " [ID]")),
       (u, "crm:P190_has_symbolic_content", .lit (pyFormat wid.id_value))]
    ∧ (∀ t ∈ work_id_triples g wt [(u, wid)],
        t.2.1 ≠ "crm:P2_has_type")
    ∧ eltec_e42_triples hashFn g wt wid =
      [(mkuriC hashFn ("e42 " ++ pyFormat wid.id_value),
         "rdf:type", .uri "crm:E42_Identifier"),
       (mkuriC hashFn ("e42 " ++ pyFormat wid.id_value),
         "rdfs:label", .lit (wt ++ " [ID]")),
       (mkuriC hashFn ("e42 " ++ pyFormat wid.id_value),
         "crm:P190_has_symbolic_content", .lit (pyFormat wid.id_value))]
    ∧ (∀ t ∈ eltec_e42_triples hashFn g wt wid,
        t.2.1 ≠ "crm:P2_has_type")
    ∧ eltec_e39_e42_gen env g ⟨ws, fs, [(ukey, aid)], ns⟩ b =
      [(mkuriD env (pyFormat aid.id_value ++ " [E42]"),
         "rdf:type", .uri "crm:E42_Identifier"),
       (mkuriD env (pyFormat aid.id_value ++ " [E42]"),
         "rdfs:label", .lit (b.author_name ++ " [ID]")),
       (mkuriD env (pyFormat aid.id_value ++ " [E42]"),
         "crm:P190_has_symbolic_content", .lit (pyFormat aid.id_value))]
    ∧ (∀ t ∈ eltec_e39_e42_gen env g ⟨ws, fs, [(ukey, aid)], ns⟩ b,
        t.2.1 ≠ "crm:P2_has_type") := by
  have h1 : work_id_triples g wt [(u, wid)] =
      [(u, "rdf:type", .uri "crm:E42_Identifier"),
       (u, "rdfs:label", .lit (wt ++ " [ID]")),
       (u, "crm:P190_has_symbolic_content",
         .lit (pyFormat wid.id_value))] := by
    simp [work_id_triples, hmiss, lP, su, sl]
  have h2 : eltec_e42_triples hashFn g wt wid =
      [(mkuriC hashFn ("e42 " ++ pyFormat wid.id_value),
         "rdf:type", .uri "crm:E42_Identifier"),
       (mkuriC hashFn ("e42 " ++ pyFormat wid.id_value),
         "rdfs:label", .lit (wt ++ " [ID]")),
       (mkuriC hashFn ("e42 " ++ pyFormat wid.id_value),
         "crm:P190_has_symbolic_content",
         .lit (pyFormat wid.id_value))] := by
    simp [eltec_e42_triples, hmiss, lP, su, sl]
  have h3 : eltec_e39_e42_gen env g ⟨ws, fs, [(ukey, aid)], ns⟩ b =
      [(mkuriD env (pyFormat aid.id_value ++ " [E42]"),
         "rdf:type", .uri "crm:E42_Identifier"),
       (mkuriD env (pyFormat aid.id_value ++ " [E42]"),
         "rdfs:label", .lit (b.author_name ++ " [ID]")),
       (mkuriD env (pyFormat aid.id_value ++ " [E42]"),
         "crm:P190_has_symbolic_content",
         .lit (pyFormat aid.id_value))] := by
    simp [eltec_e39_e42_gen, hmiss2, lP, su, sl]
  refine ⟨h1, ?_, h2, ?_, h3, ?_⟩
  · intro t ht
    rw [h1] at ht
    simp only [List.mem_cons, List.not_mem_nil, or_false] at ht
    rcases ht with rfl | rfl | rfl <;> simp
  · intro t ht
    rw [h2] at ht
    simp only [List.mem_cons, List.not_mem_nil, or_false] at ht
    rcases ht with rfl | rfl | rfl <;> simp
  · intro t ht
    rw [h3] at ht
    simp only [List.mem_cons, List.not_mem_nil, or_false] at ht
    rcases ht with rfl | rfl | rfl <;> simp

/-- C9 witness: the theorem applied with the empty vocabulary graph
(where every lookup fails), a work identifier typed `"wikidata"`, and
an author identifier typed `"viaf"`: both emit exactly their base
triples. -/
theorem vocab_miss_omits_type_triple_witness :
    (work_id_triples [] "Foo" [(.uri "e42u",
      ⟨⟨some "wikidata", some "Q1"⟩, "firstEdition"⟩)] =
      [(.uri "e42u", "rdf:type", .uri "crm:E42_Identifier"),
       (.uri "e42u", "rdfs:label", .lit "Foo [ID]"),
       (.uri "e42u", "crm:P190_has_symbolic_content", .lit "Q1")])
    ∧ (eltec_e39_e42_gen witnessEnv [] ⟨[], [], [(.uri "akey",
        ⟨some "viaf", some "123"⟩)], []⟩ witnessEltecBindings =
      [(mkuriD witnessEnv "123 [E42]",
         "rdf:type", .uri "crm:E42_Identifier"),
       (mkuriD witnessEnv "123 [E42]",
         "rdfs:label", .lit "Bar Baz [ID]"),
       (mkuriD witnessEnv "123 [E42]",
         "crm:P190_has_symbolic_content", .lit "123")]) := by
  have h := vocab_miss_omits_type_triple witnessEnv (fun s => s) []
    "Foo" (.uri "e42u") (.uri "akey")
    ⟨⟨some "wikidata", some "Q1"⟩, "firstEdition"⟩
    ⟨some "viaf", some "123"⟩ [] [] [] witnessEltecBindings
    "No subject URI for term 'wikidata'."
    "No subject URI for term 'viaf'." rfl rfl
  refine ⟨h.1, ?_⟩
  have e : witnessEltecBindings.author_name = "Bar Baz" := rfl
  simpa [pyFormat, e] using h.2.2.2.2.1

/-- The realised-in/type key property of one emitted triple: a triple
carrying the `R3_is_realised_in` predicate is exactly the Work →
Expression link of the allocated namespace, and a type assertion of
class `F2_Expression` has the allocated Expression URI as subject. -/
def eltecKeyProp (al : EltecAlloc) (t : Triple) : Prop :=
  (t.2.1 = "lrm:R3_is_realised_in" →
    t = (nsGet al.uris "f1", "lrm:R3_is_realised_in",
         nsGet al.uris "f2"))
  ∧ (t.2.1 = "rdf:type" ∧ t.2.2 = Node.uri "lrm:F2_Expression" →
    t.1 = nsGet al.uris "f2")

lemma keyProp_A {al : EltecAlloc} {s o : Node} {p : String}
    (h1 : p ≠ "lrm:R3_is_realised_in") (h2 : p ≠ "rdf:type") :
    eltecKeyProp al (s, p, o) :=
  ⟨fun h => absurd h h1, fun h => absurd h.1 h2⟩

lemma keyProp_B {al : EltecAlloc} {s o : Node} {p : String}
    (h1 : p ≠ "lrm:R3_is_realised_in")
    (h2 : o ≠ Node.uri "lrm:F2_Expression") :
    eltecKeyProp al (s, p, o) :=
  ⟨fun h => absurd h h1, fun h => absurd h.2 h2⟩

lemma str_R3_ne_type : ("lrm:R3_is_realised_in" : String) ≠ "rdf:type" := by
  decide

lemma str_type_ne_R3 : ("rdf:type" : String) ≠ "lrm:R3_is_realised_in" := by
  decide

/-- The realised-in triple of `f1_triples` itself satisfies the key
property. -/
lemma keyProp_R3_triple {al : EltecAlloc} :
    eltecKeyProp al (nsGet al.uris "f1", "lrm:R3_is_realised_in",
      nsGet al.uris "f2") :=
  ⟨fun _ => rfl, fun h => absurd h.1 str_R3_ne_type⟩

/-- The Expression type triple of `f2_triples` itself satisfies the
key property. -/
lemma keyProp_F2_type {al : EltecAlloc} :
    eltecKeyProp al (nsGet al.uris "f2", "rdf:type",
      Node.uri "lrm:F2_Expression") :=
  ⟨fun h => absurd h str_type_ne_R3, fun _ => rfl⟩

lemma eltec_f1_keyProp (al : EltecAlloc) (b : ELTeCBindings) :
    ∀ t ∈ eltec_f1_triples al b, eltecKeyProp al t := by
  intro t ht
  simp [eltec_f1_triples, lP, su, sl] at ht
  rcases ht with rfl | rfl | rfl | rfl | rfl
  · exact keyProp_B (by decide) (by simp)
  · exact keyProp_B (by decide) (by simp)
  · exact keyProp_A (by decide) (by decide)
  · exact keyProp_R3_triple
  · exact keyProp_A (by decide) (by decide)

lemma eltec_f2_keyProp (al : EltecAlloc) (b : ELTeCBindings) :
    ∀ t ∈ eltec_f2_triples al b, eltecKeyProp al t := by
  intro t ht
  simp [eltec_f2_triples, lP, lO, su, sl, lodFan_scalars] at ht
  rcases ht with rfl | rfl | rfl | rfl | rfl | rfl | ⟨o, ho, rfl⟩
  · exact keyProp_F2_type
  · exact keyProp_B (by decide) (by simp)
  · exact keyProp_A (by decide) (by decide)
  · exact keyProp_A (by decide) (by decide)
  · exact keyProp_A (by decide) (by decide)
  · exact keyProp_A (by decide) (by decide)
  · exact keyProp_A (by decide) (by decide)

lemma eltec_x1_keyProp (al : EltecAlloc) (env : AllocEnv)
    (b : ELTeCBindings) (sfx : String) :
    ∀ t ∈ eltec_x1_triples env al b sfx, eltecKeyProp al t := by
  intro t ht
  simp [eltec_x1_triples, lP, su, sl] at ht
  rcases ht with rfl | rfl | rfl | rfl | rfl | rfl
  · exact keyProp_B (by decide) (by simp)
  · exact keyProp_A (by decide) (by decide)
  · exact keyProp_B (by decide) (by simp)
  · exact keyProp_B (by decide) (by simp)
  · exact keyProp_A (by decide) (by decide)
  · exact keyProp_A (by decide) (by decide)

lemma eltec_x1_eltec_keyProp (al : EltecAlloc) (env : AllocEnv)
    (b : ELTeCBindings) :
    ∀ t ∈ eltec_x1_eltec_triples env al b, eltecKeyProp al t := by
  intro t ht
  simp [eltec_x1_eltec_triples, lP, su, sl] at ht
  rcases ht with rfl | rfl | rfl
  · exact keyProp_B (by decide) (by simp)
  · exact keyProp_A (by decide) (by decide)
  · exact keyProp_A (by decide) (by decide)

lemma eltec_x2_keyProp (al : EltecAlloc) (env : AllocEnv)
    (b : ELTeCBindings) (tei : Node) :
    ∀ t ∈ eltec_x2_triples env al b tei, eltecKeyProp al t := by
  intro t ht
  simp [eltec_x2_triples, lP, su, sl] at ht
  rcases ht with rfl | rfl | rfl | rfl | rfl | rfl | rfl | rfl
  · exact keyProp_B (by decide) (by simp)
  · exact keyProp_B (by decide) (by simp)
  · exact keyProp_A (by decide) (by decide)
  · exact keyProp_A (by decide) (by decide)
  · exact keyProp_A (by decide) (by decide)
  · exact keyProp_A (by decide) (by decide)
  · exact keyProp_A (by decide) (by decide)
  · exact keyProp_A (by decide) (by decide)

lemma eltec_x2_e42_keyProp (al : EltecAlloc) (env : AllocEnv)
    (b : ELTeCBindings) :
    ∀ t ∈ eltec_x2_e42_triples env al b, eltecKeyProp al t := by
  intro t ht
  simp [eltec_x2_e42_triples, lP, su, sl] at ht
  rcases ht with rfl | rfl | rfl | rfl
  · exact keyProp_B (by decide) (by simp)
  · exact keyProp_B (by decide) (by simp)
  · exact keyProp_A (by decide) (by decide)
  · exact keyProp_A (by decide) (by decide)

lemma eltec_x8_keyProp (al : EltecAlloc) (env : AllocEnv) :
    ∀ t ∈ eltec_x8_triples env al, eltecKeyProp al t := by
  intro t ht
  simp [eltec_x8_triples, lP, su, sl] at ht
  rcases ht with rfl | rfl | rfl | rfl
  · exact keyProp_B (by decide) (by simp)
  · exact keyProp_B (by decide) (by simp)
  · exact keyProp_A (by decide) (by decide)
  · exact keyProp_A (by decide) (by decide)

lemma eltec_f3_gen_keyProp (al : EltecAlloc) (g : List Triple)
    (b : ELTeCBindings) :
    ∀ t ∈ eltec_f3_gen g al b, eltecKeyProp al t := by
  intro t ht
  simp only [eltec_f3_gen, List.mem_flatMap] at ht
  obtain ⟨pr, _, ht⟩ := ht
  rcases List.mem_append.mp ht with ht | ht
  · rcases hv : vocab g (some (resolve_source_type pr.2.2.source_type))
      with e | u
    · rw [hv] at ht; cases ht
    · rw [hv] at ht
      simp at ht
      subst ht
      exact keyProp_A (by decide) (by decide)
  · simp [lP, su, sl] at ht
    rcases ht with rfl | rfl | rfl | rfl
    · exact keyProp_B (by decide) (by simp)
    · exact keyProp_B (by decide) (by simp)
    · exact keyProp_A (by decide) (by decide)
    · exact keyProp_A (by decide) (by decide)

lemma eltec_f27_keyProp (al : EltecAlloc) (b : ELTeCBindings) :
    ∀ t ∈ eltec_f27_triples al b, eltecKeyProp al t := by
  intro t ht
  simp [eltec_f27_triples, lP, su, sl] at ht
  rcases ht with rfl | rfl | rfl | rfl
  · exact keyProp_B (by decide) (by simp)
  · exact keyProp_B (by decide) (by simp)
  · exact keyProp_A (by decide) (by decide)
  · exact keyProp_A (by decide) (by decide)

lemma eltec_f28_keyProp (al : EltecAlloc) (b : ELTeCBindings) :
    ∀ t ∈ eltec_f28_triples al b, eltecKeyProp al t := by
  intro t ht
  simp [eltec_f28_triples, lP, su, sl] at ht
  rcases ht with rfl | rfl | rfl | rfl
  · exact keyProp_B (by decide) (by simp)
  · exact keyProp_B (by decide) (by simp)
  · exact keyProp_A (by decide) (by decide)
  · exact keyProp_A (by decide) (by decide)

lemma eltec_e35_keyProp (al : EltecAlloc) (env : AllocEnv)
    (b : ELTeCBindings) :
    ∀ t ∈ eltec_e35_triples env al b, eltecKeyProp al t := by
  intro t ht
  simp [eltec_e35_triples, lP, su, sl] at ht
  rcases ht with rfl | rfl | rfl | rfl | rfl
  · exact keyProp_B (by decide) (by simp)
  · exact keyProp_A (by decide) (by decide)
  · exact keyProp_A (by decide) (by decide)
  · exact keyProp_B (by decide) (by simp)
  · exact keyProp_A (by decide) (by decide)

lemma eltec_e39_gen_keyProp (al : EltecAlloc) (env : AllocEnv)
    (b : ELTeCBindings) :
    ∀ t ∈ eltec_e39_gen env al b, eltecKeyProp al t := by
  intro t ht
  simp only [eltec_e39_gen] at ht
  rcases List.mem_append.mp ht with ht | ht
  · simp [lP, su, sl, lodFan_scalars, lO] at ht
    rcases ht with rfl | rfl | rfl | rfl | rfl | ⟨o, ho, rfl⟩
    · exact keyProp_B (by decide) (by simp)
    · exact keyProp_B (by decide) (by simp)
    · exact keyProp_A (by decide) (by decide)
    · exact keyProp_A (by decide) (by decide)
    · exact keyProp_A (by decide) (by decide)
    · exact keyProp_A (by decide) (by decide)
  · obtain ⟨pr, _, rfl⟩ := List.mem_map.mp ht
    exact keyProp_A (by decide) (by decide)

lemma eltec_e39_e41_keyProp (al : EltecAlloc) (env : AllocEnv)
    (b : ELTeCBindings) :
    ∀ t ∈ eltec_e39_e41_triples env al b, eltecKeyProp al t := by
  intro t ht
  simp [eltec_e39_e41_triples, lP, su, sl] at ht
  rcases ht with rfl | rfl | rfl | rfl | rfl
  · exact keyProp_B (by decide) (by simp)
  · exact keyProp_B (by decide) (by simp)
  · exact keyProp_A (by decide) (by decide)
  · exact keyProp_A (by decide) (by decide)
  · exact keyProp_A (by decide) (by decide)

lemma eltec_e39_e42_gen_keyProp (al : EltecAlloc) (env : AllocEnv)
    (g : List Triple) (b : ELTeCBindings) :
    ∀ t ∈ eltec_e39_e42_gen env g al b, eltecKeyProp al t := by
  intro t ht
  simp only [eltec_e39_e42_gen, List.mem_flatMap] at ht
  obtain ⟨pr, _, ht⟩ := ht
  rcases List.mem_append.mp ht with ht | ht
  · rcases hv : vocab g pr.2.id_type with e | u
    · rw [hv] at ht; cases ht
    · rw [hv] at ht
      simp at ht
      subst ht
      exact keyProp_A (by decide) (by decide)
  · simp [lP, su, sl] at ht
    rcases ht with rfl | rfl | rfl
    · exact keyProp_B (by decide) (by simp)
    · exact keyProp_B (by decide) (by simp)
    · exact keyProp_A (by decide) (by decide)

lemma eltec_e55_title_keyProp (al : EltecAlloc) (env : AllocEnv) :
    ∀ t ∈ eltec_e55_title_triples env al, eltecKeyProp al t := by
  intro t ht
  simp [eltec_e55_title_triples, lP, su, sl] at ht
  rcases ht with rfl | rfl | rfl
  · exact keyProp_B (by decide) (by simp)
  · exact keyProp_B (by decide) (by simp)
  · exact keyProp_A (by decide) (by decide)

lemma eltec_e55_id_keyProp (al : EltecAlloc) (env : AllocEnv) :
    ∀ t ∈ eltec_e55_id_triples env al, eltecKeyProp al t := by
  intro t ht
  simp [eltec_e55_id_triples, lP, su, sl] at ht
  rcases ht with rfl | rfl | rfl
  · exact keyProp_B (by decide) (by simp)
  · exact keyProp_B (by decide) (by simp)
  · exact keyProp_A (by decide) (by decide)

lemma eltec_e55_author_name_keyProp (al : EltecAlloc) (env : AllocEnv) :
    ∀ t ∈ eltec_e55_author_name_triples env al, eltecKeyProp al t := by
  intro t ht
  simp [eltec_e55_author_name_triples, lP, su, sl] at ht
  rcases ht with rfl | rfl | rfl
  · exact keyProp_B (by decide) (by simp)
  · exact keyProp_B (by decide) (by simp)
  · exact keyProp_A (by decide) (by decide)

lemma eltec_schema_keyProp (al : EltecAlloc) (env : AllocEnv) :
    ∀ t ∈ eltec_schema_triples env, eltecKeyProp al t := by
  intro t ht
  simp [eltec_schema_triples, lP, su, sl] at ht
  rcases ht with rfl | rfl | rfl
  · exact keyProp_B (by decide) (by simp)
  · exact keyProp_B (by decide) (by simp)
  · exact keyProp_A (by decide) (by decide)

lemma work_id_triples_keyProp (al : EltecAlloc) (g : List Triple)
    (wt : String) (ids : List (Node × SourceData)) :
    ∀ t ∈ work_id_triples g wt ids, eltecKeyProp al t := by
  intro t ht
  simp only [work_id_triples, List.mem_flatMap] at ht
  obtain ⟨pr, _, ht⟩ := ht
  rcases List.mem_append.mp ht with ht | ht
  · rcases hv : vocab g pr.2.id_type with e | u
    · rw [hv] at ht; cases ht
    · rw [hv] at ht
      simp at ht
      subst ht
      exact keyProp_A (by decide) (by decide)
  · simp [lP, su, sl] at ht
    rcases ht with rfl | rfl | rfl
    · exact keyProp_B (by decide) (by simp)
    · exact keyProp_B (by decide) (by simp)
    · exact keyProp_A (by decide) (by decide)

lemma eltec_body_keyProp (env : AllocEnv) (g : List Triple)
    (b : ELTeCBindings) (al : EltecAlloc) (sfx : String) (tei : Node) :
    ∀ t ∈ eltec_body env g b al sfx tei, eltecKeyProp al t := by
  intro t ht
  simp only [eltec_body, List.append_assoc, List.mem_append] at ht
  rcases ht with ht | ht | ht | ht | ht | ht | ht | ht | ht | ht | ht |
    ht | ht | ht | ht | ht | ht | ht | ht
  · exact eltec_f1_keyProp al b t ht
  · exact eltec_f2_keyProp al b t ht
  · exact eltec_x1_keyProp al env b sfx t ht
  · exact eltec_x1_eltec_keyProp al env b t ht
  · exact eltec_x2_keyProp al env b tei t ht
  · exact eltec_x2_e42_keyProp al env b t ht
  · exact eltec_x8_keyProp al env t ht
  · exact eltec_f3_gen_keyProp al g b t ht
  · exact eltec_f27_keyProp al b t ht
  · exact eltec_f28_keyProp al b t ht
  · exact eltec_e35_keyProp al env b t ht
  · exact eltec_e39_gen_keyProp al env b t ht
  · exact eltec_e39_e41_keyProp al env b t ht
  · exact eltec_e39_e42_gen_keyProp al env g b t ht
  · exact eltec_e55_title_keyProp al env t ht
  · exact eltec_e55_id_keyProp al env t ht
  · exact eltec_e55_author_name_keyProp al env t ht
  · exact eltec_schema_keyProp al env t ht
  · exact work_id_triples_keyProp al g b.work_title al.work_ids t ht

/-- C4.  One invocation of the ELTeC triple generator allocates the
Entity URI Namespace once up front (`eltec_uris`; the emission phase
is parameterized over that single allocation) and the emitted triple
sequence is referentially consistent: it contains the Work's
realised-in triple linking the allocated `f1` URI to the allocated
`f2` URI and the Expression's own type triple with the same allocated
`f2` URI as subject; moreover *every* realised-in triple of the output
is exactly that one, and *every* `F2_Expression` type assertion has
exactly that Expression URI as subject. -/
theorem eltec_namespace_referential_consistency (env : AllocEnv)
    (g : List Triple) (b : ELTeCBindings) (st : Nat)
    (ts : List Triple)
    (h : eltec_generate_triples env g b st = .ok ts) :
    ((nsGet (eltec_uris env b st).uris "f1", "lrm:R3_is_realised_in",
       nsGet (eltec_uris env b st).uris "f2") ∈ ts)
    ∧ ((nsGet (eltec_uris env b st).uris "f2", "rdf:type",
         Node.uri "lrm:F2_Expression") ∈ ts)
    ∧ (∀ t ∈ ts, t.2.1 = "lrm:R3_is_realised_in" →
        t = (nsGet (eltec_uris env b st).uris "f1",
             "lrm:R3_is_realised_in",
             nsGet (eltec_uris env b st).uris "f2"))
    ∧ (∀ t ∈ ts, t.2.1 = "rdf:type" →
        t.2.2 = Node.uri "lrm:F2_Expression" →
        t.1 = nsGet (eltec_uris env b st).uris "f2") := by
  unfold eltec_generate_triples at h
  split at h
  · cases h
  · split at h
    · cases h
    · injection h with h
      subst h
      set al := eltec_uris env b st with hal
      refine ⟨?_, ?_, ?_, ?_⟩
      · have hmem : (nsGet al.uris "f1", "lrm:R3_is_realised_in",
            nsGet al.uris "f2") ∈ eltec_f1_triples al b := by
          simp [eltec_f1_triples, lP, su, sl]
        simp only [eltec_body, List.append_assoc, List.mem_append]
        exact Or.inl hmem
      · have hmem : (nsGet al.uris "f2", "rdf:type",
            Node.uri "lrm:F2_Expression") ∈ eltec_f2_triples al b := by
          simp [eltec_f2_triples, lP, su, sl]
        simp only [eltec_body, List.append_assoc, List.mem_append]
        exact Or.inr (Or.inl hmem)
      · intro t ht hpred
        exact (eltec_body_keyProp env g b al _ _ t ht).1 hpred
      · intro t ht hpred hobj
        exact (eltec_body_keyProp env g b al _ _ t ht).2 ⟨hpred, hobj⟩

/-- C4 witness: the theorem applied to the minimal record, the
identity hash, the counter randomness stream, and the one-entry
vocabulary graph; generation succeeds and the output contains the
Work → Expression realised-in link of the single up-front
allocation. -/
theorem eltec_namespace_referential_consistency_witness :
    (nsGet (eltec_uris witnessEnv witnessEltecBindings 0).uris "f1",
      "lrm:R3_is_realised_in",
      nsGet (eltec_uris witnessEnv witnessEltecBindings 0).uris "f2") ∈
    ((eltec_generate_triples witnessEnv witnessVocab
        witnessEltecBindings 0).toOption.getD []) := by
  exact (eltec_namespace_referential_consistency witnessEnv witnessVocab
    witnessEltecBindings 0
    ((eltec_generate_triples witnessEnv witnessVocab
        witnessEltecBindings 0).toOption.getD []) rfl).1

end Clscorgi
